import Mathlib

/-!
Verification of `xenserver/resource_vbd.go` (terraform-provider-xenserver).

The Go source is shallowly embedded: every function of the file is rendered
as an executable Lean definition over explicit data.  Remote XenAPI calls
(`VM.GetVBDs`, `VBD.Query`/`Commit`, `VDI.Load`/`Destroy`,
`VM.GetAllowedVBDDevices`, `VBD.Create`, `VBD.Plug`) live in other files of
the repository / in the vendored client; they are modelled as opaque oracle
functions collected in a `Connection` record, each returning `Except` the way
the Go calls return `(value, error)`.  The Go enum types `xenAPI.VbdType`,
`xenAPI.VbdMode` and `xenAPI.VMPowerState` are string-typed in the client, so
they are modelled as `String` with the client's constant values.
-/

/-- `strings.ToLower` as used by the source (all strings compared here are
ASCII; `Char.toLower` lower-cases exactly the ASCII range). -/
def goToLower (s : String) : String :=
  String.mk (s.data.map Char.toLower)

/-- Rendering of Go's `%q` verb for the strings that occur in the error
messages of the source (escaping of special characters elided). -/
def goQuote (s : String) : String :=
  "\"" ++ s ++ "\""

/-- Rendering of Go's `%t` verb. -/
def goBoolString (b : Bool) : String :=
  if b then "true" else "false"

/-- UTF-8 encoding of one character, the bytes Go's `[]byte(s)` yields. -/
def utf8Bytes (c : Char) : List Nat :=
  let n := c.toNat
  if n < 0x80 then [n]
  else if n < 0x800 then
    [0xC0 ||| (n >>> 6), 0x80 ||| (n &&& 0x3F)]
  else if n < 0x10000 then
    [0xE0 ||| (n >>> 12), 0x80 ||| ((n >>> 6) &&& 0x3F), 0x80 ||| (n &&& 0x3F)]
  else
    [0xF0 ||| (n >>> 18), 0x80 ||| ((n >>> 12) &&& 0x3F),
     0x80 ||| ((n >>> 6) &&& 0x3F), 0x80 ||| (n &&& 0x3F)]

/-- The byte sequence of a Go string. -/
def stringBytes (s : String) : List Nat :=
  s.data.flatMap utf8Bytes

/-- Reflected CRC-32 (IEEE) polynomial used by Go's `hash/crc32`. -/
def crc32Poly : Nat := 0xEDB88320

/-- One bit round of the reflected CRC-32 computation. -/
def crc32Round (crc : Nat) : Nat :=
  if crc % 2 = 1 then (crc / 2) ^^^ crc32Poly else crc / 2

/-- Folding one byte into the CRC-32 state (eight bit rounds). -/
def crc32Byte (crc b : Nat) : Nat :=
  crc32Round (crc32Round (crc32Round (crc32Round
    (crc32Round (crc32Round (crc32Round (crc32Round (crc ^^^ (b % 256)))))))))

/-- `crc32.ChecksumIEEE` on a byte list. -/
def crc32 (bytes : List Nat) : Nat :=
  0xFFFFFFFF ^^^ bytes.foldl crc32Byte 0xFFFFFFFF

/-- `crc32.ChecksumIEEE([]byte(s))`. -/
def crc32String (s : String) : Nat :=
  crc32 (stringBytes s)

/-- `hashcode.String` from `terraform/helper/hashcode`:
`v := int(crc32.ChecksumIEEE([]byte(s)))`, returned when non-negative,
`-v` when that is non-negative, else `0`.  Go `int` is 64-bit here, so the
conversion of the `uint32` checksum is itself non-negative; the source's
branch structure is kept. -/
def hashcodeString (s : String) : Int :=
  let v : Int := Int.ofNat (crc32String s)
  if 0 ≤ v then v
  else if 0 ≤ -v then -v
  else 0

/-! ## Data model -/

/-- `xenAPI.VbdTypeCD`. -/
def VbdTypeCD : String := "CD"

/-- `xenAPI.VbdTypeDisk`. -/
def VbdTypeDisk : String := "Disk"

/-- `xenAPI.VbdModeRO`. -/
def VbdModeRO : String := "RO"

/-- `xenAPI.VbdModeRW`. -/
def VbdModeRW : String := "RW"

/-- `xenAPI.VMPowerStateRunning`. -/
def VMPowerStateRunning : String := "Running"

/-- The fields of `VMDescriptor` used by this source file. -/
structure VMDescriptor where
  vmRef : String
  nameLabel : String
  powerState : String
deriving DecidableEq

/-- The fields of `VDIDescriptor` used by this source file. -/
structure VDIDescriptor where
  vdiRef : String
  uuid : String
deriving DecidableEq

/-- The fields of `VBDDescriptor` used by this source file.  The Go pointers
`VM *VMDescriptor` and `VDI *VDIDescriptor` become `Option`s. -/
structure VBDDescriptor where
  vbdRef : String
  uuid : String
  vtype : String
  mode : String
  vm : Option VMDescriptor
  bootable : Bool
  userDevice : String
  isTemplateDevice : Bool
  vdi : Option VDIDescriptor
deriving DecidableEq

/-- A flat schema record with all five keys present, the shape produced by
`fillVBDSchema` and consumed by `vbdHash` and `readTemplateVBDsToSchema`
(those functions type-assert every key). -/
structure ConfigRecord where
  vdi_uuid : String
  bootable : Bool
  mode : String
  user_device : String
  is_from_template : Bool
deriving DecidableEq

/-- A schema record as `readVBDFromSchema` receives it: the `vdi_uuid` key may
be absent from the map (`if id, ok := s[vbdSchemaVdiUUID]; ok`), hence an
`Option`; the remaining keys are type-asserted unconditionally. -/
structure SchemaData where
  vdi_uuid : Option String
  bootable : Bool
  mode : String
  user_device : String
  is_from_template : Bool
deriving DecidableEq

/-- The fields of `xenAPI.VBDRecord` set by `createVBD`; `vdi` keeps the Go
zero value `""` when no VDI is attached. -/
structure VBDRecord where
  rtype : String
  mode : String
  bootable : Bool
  vm : String
  empty : Bool
  userdevice : String
  vdi : String
deriving DecidableEq

/-- The remote side: each XenAPI call made by the source, and the descriptor
methods `VBD.Query`, `VBD.Commit`, `VDI.Load` defined in other files of the
repository, as oracle functions.  `queryVBD` returns the fully populated
descriptor for a VBD reference, `commitVBD` pushes a descriptor back,
`loadVDI` resolves a VDI by UUID. -/
structure Connection where
  getVBDs : String → Except String (List String)
  queryVBD : String → Except String VBDDescriptor
  commitVBD : VBDDescriptor → Except String Unit
  loadVDI : String → Except String VDIDescriptor
  destroyVDI : String → Except String Unit
  getAllowedVBDDevices : String → Except String (List String)
  createVBDCall : VBDRecord → Except String String
  plugVBD : String → Except String Unit

/-- Go dereference `vbd.VDI.UUID`; the `none` case would be a nil-pointer
dereference in Go and is unreachable on the inputs considered. -/
def vdiUUIDOf (vbd : VBDDescriptor) : String :=
  match vbd.vdi with
  | some v => v.uuid
  | none => ""

/-- Go dereference `vbd.VDI.VDIRef`; the `none` case would be a nil-pointer
dereference in Go and is unreachable on the inputs considered. -/
def vdiRefOf (vbd : VBDDescriptor) : String :=
  match vbd.vdi with
  | some v => v.vdiRef
  | none => ""

/-- Go dereference of the `vbd.VM` pointer; the `none` case would be a
nil-pointer dereference in Go and is unreachable on the inputs considered. -/
def derefVM (vm : Option VMDescriptor) : VMDescriptor :=
  match vm with
  | some v => v
  | none => { vmRef := "", nameLabel := "", powerState := "" }

/-! ## The embedded functions of resource_vbd.go -/

/-- The string `vbdHash` builds in its `bytes.Buffer`: for a non-template
record `-<vdi_uuid>` then `-<lower(mode)>` when `mode` is non-empty then
`-<bootable as %t>`; for a template record the bare `user_device`. -/
def vbdHashString (m : ConfigRecord) : String :=
  if !m.is_from_template then
    let buf := "-" ++ m.vdi_uuid
    let buf := if m.mode ≠ "" then buf ++ ("-" ++ goToLower m.mode) else buf
    buf ++ ("-" ++ goBoolString m.bootable)
  else
    m.user_device

/-- `vbdHash`: the buffer string hashed with `hashcode.String`. -/
def vbdHash (m : ConfigRecord) : Int :=
  hashcodeString (vbdHashString m)

/-- `fillVBDSchema`: the record written back for a queried descriptor, with
`""` substituted when no VDI is attached. -/
def fillVBDSchema (vbd : VBDDescriptor) : ConfigRecord :=
  { vdi_uuid := match vbd.vdi with
      | some v => v.uuid
      | none => ""
    bootable := vbd.bootable
    mode := vbd.mode
    user_device := vbd.userDevice
    is_from_template := vbd.isTemplateDevice }

/-- `readVBDFromSchema`: when the `vdi_uuid` key is present (even with value
`""`) a `VDIDescriptor` is loaded by UUID, any load error aborting; the mode
string is then compared lower-cased against the two enum values, any other
value yielding the validation error; the descriptor is finally built with Go
zero values for the fields the source does not set. -/
def readVBDFromSchema (c : Connection) (s : SchemaData) : Except String VBDDescriptor :=
  match s.vdi_uuid with
  | some id =>
    match c.loadVDI id with
    | .error e => .error e
    | .ok v => readVBDFromSchemaAux s (some v)
  | none => readVBDFromSchemaAux s none
where
  readVBDFromSchemaAux (s : SchemaData) (vdi : Option VDIDescriptor) :
      Except String VBDDescriptor :=
    if goToLower s.mode = goToLower VbdModeRO then
      .ok { vbdRef := "", uuid := "", vtype := "", mode := VbdModeRO, vm := none,
            bootable := s.bootable, userDevice := s.user_device,
            isTemplateDevice := false, vdi := vdi }
    else if goToLower s.mode = goToLower VbdModeRW then
      .ok { vbdRef := "", uuid := "", vtype := "", mode := VbdModeRW, vm := none,
            bootable := s.bootable, userDevice := s.user_device,
            isTemplateDevice := false, vdi := vdi }
    else
      .error (goQuote s.mode ++ " is not valid mode (either RO or RW)")

/-- The loop body of `readVBDs`: query each reference (any query error aborts
with `(nil, nil, err)`), then classify by `vbd.Type`, appending the filled
record to the cdrom list for `CD`, to the hdd list for `Disk`, and failing on
any other type. -/
def readVBDsLoop (c : Connection) : List String → Except String (List ConfigRecord × List ConfigRecord)
  | [] => .ok ([], [])
  | ref :: rest =>
    match c.queryVBD ref with
    | .error e => .error e
    | .ok vbd =>
      let vbdData := fillVBDSchema vbd
      if vbd.vtype = VbdTypeCD then
        match readVBDsLoop c rest with
        | .error e => .error e
        | .ok (hdd, cdrom) => .ok (hdd, vbdData :: cdrom)
      else if vbd.vtype = VbdTypeDisk then
        match readVBDsLoop c rest with
        | .error e => .error e
        | .ok (hdd, cdrom) => .ok (vbdData :: hdd, cdrom)
      else
        .error ("Unsupported VBD type " ++ goQuote vbd.vtype)

/-- `readVBDs`: enumerate the VM's VBD references and classify them; every
error path of the source returns `(nil, nil, err)`, i.e. no partial lists,
which the `Except` result captures. -/
def readVBDs (c : Connection) (vm : VMDescriptor) : Except String (List ConfigRecord × List ConfigRecord) :=
  match c.getVBDs vm.vmRef with
  | .error e => .error e
  | .ok refs => readVBDsLoop c refs

/-- Outcome of the inner declared-record scan of `readTemplateVBDsToSchema`. -/
inductive BindResult where
  | notFound
  | commitErr (e : String)
  | bound (recs : List ConfigRecord)
deriving DecidableEq

/-- The inner loop of `readTemplateVBDsToSchema`: scan the declared records in
order for the first one with `is_from_template` set and the same
`user_device` as the queried descriptor; set the descriptor's
`IsTemplateDevice`, commit it (a commit error aborts everything), overwrite
the record's fields from the descriptor, and stop (`break`). -/
def bindLoop (c : Connection) (vbd : VBDDescriptor) : List ConfigRecord → BindResult
  | [] => .notFound
  | data :: rest =>
    if data.is_from_template = true ∧ data.user_device = vbd.userDevice then
      let vbd2 := { vbd with isTemplateDevice := true }
      match c.commitVBD vbd2 with
      | .error e => .commitErr e
      | .ok _ =>
        .bound ({ data with
                    user_device := vbd2.userDevice
                    vdi_uuid := vdiUUIDOf vbd2
                    bootable := vbd2.bootable
                    mode := vbd2.mode
                    is_from_template := true } :: rest)
    else
      match bindLoop c vbd rest with
      | .bound rest2 => .bound (data :: rest2)
      | r => r

/-- The outer loop of `readTemplateVBDsToSchema`.  NOTE the faithful rendering
of the source's `if vbd.Query(c) != nil { return err }`: the tested value is
the fresh `Query` error but the returned variable `err` still holds the `nil`
left by the earlier `VM.GetVBDs` check, so a query failure returns success
with the records updated so far. -/
def readTemplateLoop (c : Connection) (vbdType : String) :
    List String → List ConfigRecord → Except String (List ConfigRecord)
  | [], s => .ok s
  | ref :: rest, s =>
    match c.queryVBD ref with
    | .error _ => .ok s
    | .ok vbd =>
      if vbdType ≠ vbd.vtype then
        readTemplateLoop c vbdType rest s
      else
        match bindLoop c vbd s with
        | .notFound => .error ("template VBD " ++ vbd.uuid ++ " is not referenced")
        | .commitErr e => .error e
        | .bound s2 => readTemplateLoop c vbdType rest s2

/-- `readTemplateVBDsToSchema`: fetch the VM's VBD references and run the
binding loop over the declared records (the in-place map mutations of the Go
code become the returned record list). -/
def readTemplateVBDsToSchema (c : Connection) (vm : VMDescriptor)
    (s : List ConfigRecord) (vbdType : String) : Except String (List ConfigRecord) :=
  match c.getVBDs vm.vmRef with
  | .error e => .error e
  | .ok refs => readTemplateLoop c vbdType refs s

/-- `destroyTemplateVDIs`: skip every descriptor whose type is not `Disk`,
destroy the VDI of each remaining one, aborting on the first failure.  The
first component of the result is the trace of `VDI.Destroy` calls issued, in
order. -/
def destroyTemplateVDIs (c : Connection) : List VBDDescriptor → List String × Except String Unit
  | [] => ([], .ok ())
  | vbd :: rest =>
    if vbd.vtype ≠ VbdTypeDisk then
      destroyTemplateVDIs c rest
    else
      match c.destroyVDI (vdiRefOf vbd) with
      | .error e => ([vdiRefOf vbd], .error e)
      | .ok _ =>
        let r := destroyTemplateVDIs c rest
        (vdiRefOf vbd :: r.1, r.2)

/-- The tail of `createVBD` once the `VBD.Create` record is final: issue
`VBD.Create`, re-query the created VBD by the returned reference, and hot-plug
it when the re-queried VM power state is `Running`; every remote failure is
returned as is. -/
def createVBDRest (c : Connection) (vbdObject : VBDRecord) : Except String VBDDescriptor :=
  match c.createVBDCall vbdObject with
  | .error e => .error e
  | .ok vbdRef =>
    match c.queryVBD vbdRef with
    | .error e => .error e
    | .ok vbd2 =>
      if (derefVM vbd2.vm).powerState = VMPowerStateRunning then
        match c.plugVBD vbdRef with
        | .error e => .error e
        | .ok _ => .ok vbd2
      else
        .ok vbd2

/-- `createVBD`: build the `VBDRecord` from the descriptor, replace its
`Userdevice` by the head of `VM.GetAllowedVBDDevices` (failing when that list
is empty, propagating the call's error otherwise), set the VDI reference when
one is attached, then issue the create call and the follow-up steps
(`createVBDRest`).  The first component of the result is the `VBD.Create`
call issued, if any. -/
def createVBD (c : Connection) (vbd : VBDDescriptor) : Option VBDRecord × Except String VBDDescriptor :=
  let vbdObject : VBDRecord :=
    { rtype := vbd.vtype
      mode := vbd.mode
      bootable := vbd.bootable
      vm := (derefVM vbd.vm).vmRef
      empty := vbd.vdi.isNone
      userdevice := vbd.userDevice
      vdi := "" }
  match c.getAllowedVBDDevices (derefVM vbd.vm).vmRef with
  | .error e => (none, .error e)
  | .ok devices =>
    match devices with
    | [] => (none, .error "No available devices to attach to")
    | d :: _ =>
      let vbdObject := { vbdObject with userdevice := d }
      let vbdObject :=
        match vbd.vdi with
        | some v => { vbdObject with vdi := v.vdiRef }
        | none => vbdObject
      (some vbdObject, createVBDRest c vbdObject)

/-- The matching condition of the inner loop of `readTemplateVBDsToSchema`:
the declared record has `is_from_template` set and the same device slot as
the queried descriptor. -/
def matchesVBD (r : ConfigRecord) (vbd : VBDDescriptor) : Prop :=
  r.is_from_template = true ∧ r.user_device = vbd.userDevice

instance (r : ConfigRecord) (vbd : VBDDescriptor) : Decidable (matchesVBD r vbd) :=
  inferInstanceAs (Decidable (_ ∧ _))

/-! ## Concrete instances used by the witnesses and counterexamples -/

/-- A remote side with innocuous defaults, overridden per instance. -/
def connBase : Connection :=
  { getVBDs := fun _ => .ok []
    queryVBD := fun _ => .error "unqueried"
    commitVBD := fun _ => .ok ()
    loadVDI := fun _ => .error "no such VDI"
    destroyVDI := fun _ => .ok ()
    getAllowedVBDDevices := fun _ => .ok []
    createVBDCall := fun _ => .ok "ref-new"
    plugVBD := fun _ => .ok () }

/-- A concrete VM descriptor. -/
def vmEx : VMDescriptor := { vmRef := "vm1", nameLabel := "VM", powerState := "Halted" }

/-- C1: a remote side whose per-VBD `Query` fails. -/
def connC1 : Connection :=
  { connBase with getVBDs := fun _ => .ok ["r1"], queryVBD := fun _ => .error "boom" }

/-- C2: a non-template descriptor declaring device slot `"9"`. -/
def vbdC2 : VBDDescriptor :=
  { vbdRef := "", uuid := "", vtype := "Disk", mode := "RW", vm := some vmEx,
    bootable := true, userDevice := "9", isTemplateDevice := false, vdi := none }

/-- C2: the descriptor the re-query returns after creation. -/
def vbdC2q : VBDDescriptor :=
  { vbdRef := "ref-new", uuid := "uuid-new", vtype := "Disk", mode := "RW",
    vm := some vmEx, bootable := true, userDevice := "1",
    isTemplateDevice := false, vdi := none }

/-- C2: a remote side reporting allowed device slots `["1","2"]`. -/
def connC2a : Connection :=
  { connBase with getAllowedVBDDevices := fun _ => .ok ["1", "2"],
                  queryVBD := fun _ => .ok vbdC2q }

/-- C2: a remote side reporting no allowed device slots. -/
def connC2b : Connection :=
  { connBase with getAllowedVBDDevices := fun _ => .ok [] }

/-- C3: a remote disk attachment with slot `"3"` that is NOT marked
template-origin. -/
def vbdC3 : VBDDescriptor :=
  { vbdRef := "b1", uuid := "u1", vtype := "Disk", mode := "RO", vm := none,
    bootable := true, userDevice := "3", isTemplateDevice := false,
    vdi := some { vdiRef := "vr1", uuid := "vu1" } }

/-- C3: a remote side exposing only the non-template attachment `vbdC3`. -/
def connC3 : Connection :=
  { connBase with getVBDs := fun _ => .ok ["b1"], queryVBD := fun _ => .ok vbdC3 }

/-- C3: a declared template record with slot `"3"`. -/
def recC3 : ConfigRecord :=
  { vdi_uuid := "old", bootable := false, mode := "RW", user_device := "3",
    is_from_template := true }

/-- C3: the record `recC3` after being overwritten from `vbdC3`. -/
def recC3bound : ConfigRecord :=
  { vdi_uuid := "vu1", bootable := true, mode := "RO", user_device := "3",
    is_from_template := true }

/-- C3 witness: a remote template disk attachment with slot `"0"`. -/
def vbdC3w : VBDDescriptor :=
  { vbdRef := "b0", uuid := "u0", vtype := "Disk", mode := "RW", vm := none,
    bootable := false, userDevice := "0", isTemplateDevice := true,
    vdi := some { vdiRef := "vr0", uuid := "vu0" } }

/-- C3 witness: a remote side exposing only `vbdC3w`. -/
def connC3w : Connection :=
  { connBase with getVBDs := fun _ => .ok ["b0"], queryVBD := fun _ => .ok vbdC3w }

/-- C3 witness: a declared record set with no record matching slot `"0"`. -/
def recC3w : ConfigRecord :=
  { vdi_uuid := "z", bootable := true, mode := "RW", user_device := "5",
    is_from_template := false }

/-- C4: a template-origin record with an empty device slot; its hash buffer is
the empty string. -/
def recC4 : ConfigRecord :=
  { vdi_uuid := "x", bootable := true, mode := "RW", user_device := "",
    is_from_template := true }

/-- C5 witness: first template record, slot `"2"`. -/
def recC5a : ConfigRecord :=
  { vdi_uuid := "aaa", bootable := true, mode := "RO", user_device := "2",
    is_from_template := true }

/-- C5 witness: second template record, same slot, all other fields different. -/
def recC5b : ConfigRecord :=
  { vdi_uuid := "bbb", bootable := false, mode := "RW", user_device := "2",
    is_from_template := true }

/-- C6 witness: first non-template record, slot `"1"`. -/
def recC6a : ConfigRecord :=
  { vdi_uuid := "img", bootable := false, mode := "rO", user_device := "1",
    is_from_template := false }

/-- C6 witness: second non-template record, same image/mode/bootable but
slot `"7"`. -/
def recC6b : ConfigRecord :=
  { vdi_uuid := "img", bootable := false, mode := "Ro", user_device := "7",
    is_from_template := false }

/-- C7 witness: record with mode `"Ro"` and no `vdi_uuid` key. -/
def sdC7ro : SchemaData :=
  { vdi_uuid := none, bootable := true, mode := "Ro", user_device := "2",
    is_from_template := false }

/-- C7 witness: record with mode `"rW"`. -/
def sdC7rw : SchemaData :=
  { vdi_uuid := none, bootable := false, mode := "rW", user_device := "3",
    is_from_template := false }

/-- C7 witness: record with the invalid mode `"xx"`. -/
def sdC7bad : SchemaData :=
  { vdi_uuid := none, bootable := false, mode := "xx", user_device := "4",
    is_from_template := false }

/-- C8: a remote disk attachment. -/
def vbdC8d : VBDDescriptor :=
  { vbdRef := "h1", uuid := "uh", vtype := "Disk", mode := "RW", vm := none,
    bootable := true, userDevice := "0", isTemplateDevice := false,
    vdi := some { vdiRef := "vrh", uuid := "vuh" } }

/-- C8: a remote optical attachment. -/
def vbdC8c : VBDDescriptor :=
  { vbdRef := "c1", uuid := "uc", vtype := "CD", mode := "RO", vm := none,
    bootable := false, userDevice := "3", isTemplateDevice := false, vdi := none }

/-- C8: a remote attachment of the unsupported kind `Floppy`. -/
def vbdC8f : VBDDescriptor :=
  { vbdRef := "f1", uuid := "uf", vtype := "Floppy", mode := "RW", vm := none,
    bootable := false, userDevice := "4", isTemplateDevice := false, vdi := none }

/-- C8: a remote side exposing one disk and one optical attachment. -/
def connC8 : Connection :=
  { connBase with
      getVBDs := fun _ => .ok ["h1", "c1"]
      queryVBD := fun r => if r = "h1" then .ok vbdC8d else .ok vbdC8c }

/-- C8: a remote side exposing an attachment of unsupported kind. -/
def connC8f : Connection :=
  { connBase with
      getVBDs := fun _ => .ok ["f1"]
      queryVBD := fun _ => .ok vbdC8f }

/-- C9: a disk attachment backed by VDI reference `"vd1"`. -/
def vbdC9d1 : VBDDescriptor :=
  { vbdRef := "x1", uuid := "u1", vtype := "Disk", mode := "RW", vm := none,
    bootable := true, userDevice := "0", isTemplateDevice := true,
    vdi := some { vdiRef := "vd1", uuid := "w1" } }

/-- C9: an optical attachment backed by VDI reference `"vd2"`. -/
def vbdC9cd : VBDDescriptor :=
  { vbdRef := "x2", uuid := "u2", vtype := "CD", mode := "RO", vm := none,
    bootable := false, userDevice := "3", isTemplateDevice := true,
    vdi := some { vdiRef := "vd2", uuid := "w2" } }

/-- C9: a second disk attachment backed by VDI reference `"vd3"`. -/
def vbdC9d2 : VBDDescriptor :=
  { vbdRef := "x3", uuid := "u3", vtype := "Disk", mode := "RW", vm := none,
    bootable := false, userDevice := "1", isTemplateDevice := true,
    vdi := some { vdiRef := "vd3", uuid := "w3" } }

/-- C9: a remote side whose `VDI.Destroy` fails exactly on `"vd3"`. -/
def connC9bad : Connection :=
  { connBase with destroyVDI := fun r => if r = "vd3" then .error "gone" else .ok () }

/-- C10: a record whose `vdi_uuid` key is present with the empty string. -/
def sdC10 : SchemaData :=
  { vdi_uuid := some "", bootable := false, mode := "RO", user_device := "7",
    is_from_template := false }

/-- C10: the VDI descriptor the successful lookup returns. -/
def vdiC10 : VDIDescriptor := { vdiRef := "vr", uuid := "vu" }

/-- C10: a remote side whose VDI lookup succeeds with `vdiC10`. -/
def connC10ok : Connection :=
  { connBase with loadVDI := fun _ => .ok vdiC10 }

/-- C10: the descriptor built for `sdC10` under `connC10ok`. -/
def vbdC10 : VBDDescriptor :=
  { vbdRef := "", uuid := "", vtype := "", mode := VbdModeRO, vm := none,
    bootable := false, userDevice := "7", isTemplateDevice := false,
    vdi := some vdiC10 }

/-! ## Helper lemmas -/

theorem goToLower_RO : goToLower VbdModeRO = "ro" := rfl

theorem goToLower_RW : goToLower VbdModeRW = "rw" := rfl

theorem goToLower_empty_iff (s : String) : goToLower s = "" ↔ s = "" := by
  cases s with
  | mk l =>
    cases l with
    | nil => simp [goToLower]
    | cons c cs =>
      constructor
      · intro h
        simp only [goToLower, List.map] at h
        exact absurd (congrArg String.data h) (by simp)
      · intro h
        exact absurd (congrArg String.data h) (by simp)

/-! ## Claim theorems -/

/-- Claim C4, counterexample: the fingerprint of the template-origin record
`recC4` (empty device slot) is `0`, which is not positive, refuting the claim
that `vbdHash` always returns a positive integer. -/
theorem C4_counterexample : vbdHash recC4 = 0 ∧ ¬ (0 < vbdHash recC4) := by
  constructor
  · decide
  · decide

/-- Claim C4, amended: for every record the fingerprint function `vbdHash`
returns a non-negative integer (zero is possible, e.g. when the hashed buffer
is empty). -/
theorem C4_vbdHash_nonneg (m : ConfigRecord) : 0 ≤ vbdHash m := by
  unfold vbdHash hashcodeString
  have h : (0 : Int) ≤ Int.ofNat (crc32String (vbdHashString m)) := Int.ofNat_nonneg _
  simp [h]

/-- Claim C5: two records marked template-origin with equal device-slot
strings get equal `vbdHash` fingerprints, whatever their other fields. -/
theorem C5_template_hash_eq (r1 r2 : ConfigRecord)
    (h1 : r1.is_from_template = true) (h2 : r2.is_from_template = true)
    (hu : r1.user_device = r2.user_device) :
    vbdHash r1 = vbdHash r2 := by
  unfold vbdHash
  congr 1
  unfold vbdHashString
  rw [h1, h2, hu]
  simp

/-- Claim C5, witness: the two template records `recC5a`, `recC5b` share slot
`"2"` but differ in every other field, and their fingerprints coincide. -/
theorem C5_witness : vbdHash recC5a = vbdHash recC5b :=
  C5_template_hash_eq recC5a recC5b rfl rfl rfl

/-- Claim C6: two records not marked template-origin with equal disk-image
UUIDs, equal lower-cased modes and equal bootable flags get equal `vbdHash`
fingerprints, whatever their device slots. -/
theorem C6_nontemplate_hash_eq (r1 r2 : ConfigRecord)
    (h1 : r1.is_from_template = false) (h2 : r2.is_from_template = false)
    (hv : r1.vdi_uuid = r2.vdi_uuid) (hm : goToLower r1.mode = goToLower r2.mode)
    (hb : r1.bootable = r2.bootable) :
    vbdHash r1 = vbdHash r2 := by
  unfold vbdHash
  congr 1
  unfold vbdHashString
  rw [h1, h2, hv, hb]
  by_cases he : r2.mode = ""
  · have he1 : r1.mode = "" := by
      rw [← goToLower_empty_iff, hm, he]
      rfl
    simp [he, he1]
  · have he1 : r1.mode ≠ "" := by
      intro h
      exact he (by rw [← goToLower_empty_iff, ← hm, h]; rfl)
    simp [he, he1, hm]

/-- Claim C6, witness: the two non-template records `recC6a`, `recC6b` share
image UUID, lower-cased mode and bootable flag but have different slots, and
their fingerprints coincide. -/
theorem C6_witness : vbdHash recC6a = vbdHash recC6b :=
  C6_nontemplate_hash_eq recC6a recC6b rfl rfl rfl rfl rfl

/-- Claim C7: provided the prior VDI lookup step does not fail, the mode
string is parsed case-insensitively: any string lower-casing to `"ro"` yields
a descriptor in mode `RO`, any string lower-casing to `"rw"` yields mode
`RW`, and any other string yields the validation error and no descriptor. -/
theorem C7_mode_parse (c : Connection) (s : SchemaData)
    (hvdi : s.vdi_uuid = none ∨ ∃ u v, s.vdi_uuid = some u ∧ c.loadVDI u = .ok v) :
    (goToLower s.mode = "ro" →
      ∃ d, readVBDFromSchema c s = .ok d ∧ d.mode = VbdModeRO) ∧
    (goToLower s.mode = "rw" →
      ∃ d, readVBDFromSchema c s = .ok d ∧ d.mode = VbdModeRW) ∧
    (goToLower s.mode ≠ "ro" → goToLower s.mode ≠ "rw" →
      readVBDFromSchema c s =
        .error (goQuote s.mode ++ " is not valid mode (either RO or RW)")) := by
  have haux : ∀ vdi : Option VDIDescriptor,
      (goToLower s.mode = "ro" →
        ∃ d, readVBDFromSchema.readVBDFromSchemaAux s vdi = .ok d ∧ d.mode = VbdModeRO) ∧
      (goToLower s.mode = "rw" →
        ∃ d, readVBDFromSchema.readVBDFromSchemaAux s vdi = .ok d ∧ d.mode = VbdModeRW) ∧
      (goToLower s.mode ≠ "ro" → goToLower s.mode ≠ "rw" →
        readVBDFromSchema.readVBDFromSchemaAux s vdi =
          .error (goQuote s.mode ++ " is not valid mode (either RO or RW)")) := by
    intro vdi
    refine ⟨?_, ?_, ?_⟩
    · intro h
      refine ⟨{ vbdRef := "", uuid := "", vtype := "", mode := VbdModeRO,
                vm := none, bootable := s.bootable, userDevice := s.user_device,
                isTemplateDevice := false, vdi := vdi }, ?_, rfl⟩
      unfold readVBDFromSchema.readVBDFromSchemaAux
      rw [goToLower_RO, if_pos h]
    · intro h
      refine ⟨{ vbdRef := "", uuid := "", vtype := "", mode := VbdModeRW,
                vm := none, bootable := s.bootable, userDevice := s.user_device,
                isTemplateDevice := false, vdi := vdi }, ?_, rfl⟩
      unfold readVBDFromSchema.readVBDFromSchemaAux
      rw [goToLower_RW, if_neg (by rw [h]; decide), if_pos h]
    · intro h1 h2
      unfold readVBDFromSchema.readVBDFromSchemaAux
      rw [goToLower_RO, goToLower_RW, if_neg h1, if_neg h2]
  rcases hvdi with h | ⟨u, v, hu, hl⟩
  · have heq : readVBDFromSchema c s = readVBDFromSchema.readVBDFromSchemaAux s none := by
      simp only [readVBDFromSchema, h]
    rw [heq]
    exact haux none
  · have heq : readVBDFromSchema c s = readVBDFromSchema.readVBDFromSchemaAux s (some v) := by
      simp only [readVBDFromSchema, hu, hl]
    rw [heq]
    exact haux (some v)

/-- Claim C7, witness: mode `"Ro"` parses to `RO`, mode `"rW"` parses to
`RW`, and mode `"xx"` yields the validation error, on concrete records. -/
theorem C7_witness :
    (∃ d, readVBDFromSchema connBase sdC7ro = .ok d ∧ d.mode = VbdModeRO) ∧
    (∃ d, readVBDFromSchema connBase sdC7rw = .ok d ∧ d.mode = VbdModeRW) ∧
    readVBDFromSchema connBase sdC7bad =
      .error (goQuote "xx" ++ " is not valid mode (either RO or RW)") :=
  ⟨(C7_mode_parse connBase sdC7ro (Or.inl rfl)).1 rfl,
   (C7_mode_parse connBase sdC7rw (Or.inl rfl)).2.1 rfl,
   (C7_mode_parse connBase sdC7bad (Or.inl rfl)).2.2 (by decide) (by decide)⟩

/-- Claim C10: when the `vdi_uuid` key is present (any value, the empty
string included) the VDI lookup is attempted: a failing lookup propagates its
error, and any successfully built descriptor carries the looked-up disk
image, never an empty one. -/
theorem C10_vdi_lookup (c : Connection) (s : SchemaData) (u : String)
    (hu : s.vdi_uuid = some u) :
    (∀ e, c.loadVDI u = .error e → readVBDFromSchema c s = .error e) ∧
    (∀ d, readVBDFromSchema c s = .ok d → ∃ v, c.loadVDI u = .ok v ∧ d.vdi = some v) := by
  constructor
  · intro e he
    simp only [readVBDFromSchema, hu, he]
  · intro d hd
    cases hl : c.loadVDI u with
    | error e =>
      simp only [readVBDFromSchema, hu, hl] at hd
      exact absurd hd (by simp)
    | ok v =>
      simp only [readVBDFromSchema, hu, hl] at hd
      refine ⟨v, rfl, ?_⟩
      unfold readVBDFromSchema.readVBDFromSchemaAux at hd
      split at hd
      · cases hd; rfl
      · split at hd
        · cases hd; rfl
        · exact absurd hd (by simp)

/-- Claim C10, witness: with the `vdi_uuid` key present as the empty string,
a failing lookup propagates its error, and a successful lookup yields a
descriptor carrying the looked-up image. -/
theorem C10_witness :
    readVBDFromSchema connBase sdC10 = .error "no such VDI" ∧
    ∃ v, connC10ok.loadVDI "" = .ok v ∧ vbdC10.vdi = some v :=
  ⟨(C10_vdi_lookup connBase sdC10 "" rfl).1 "no such VDI" rfl,
   (C10_vdi_lookup connC10ok sdC10 "" rfl).2 vbdC10 rfl⟩

/-- Claim C1, code bug: under `connC1` the per-attachment `Query` call fails
with `"boom"`, yet `readTemplateVBDsToSchema` reports success, because the
source tests `vbd.Query(c) != nil` but returns the stale `err` variable that
still holds the `nil` left by the earlier `VM.GetVBDs` check. -/
theorem C1_code_bug :
    connC1.queryVBD "r1" = .error "boom" ∧
    readTemplateVBDsToSchema connC1 vmEx [] VbdTypeDisk = .ok [] :=
  ⟨rfl, rfl⟩

/-- Claim C2: when the remote VM reports allowed device slots `d :: ds`, the
`VBD.Create` call is issued with device slot `d`, whatever slot the
descriptor declared; when it reports no slots, `createVBD` fails with the
no-devices error and no `VBD.Create` call is issued. -/
theorem C2_createVBD_slot (c : Connection) (vbd : VBDDescriptor) (vmd : VMDescriptor)
    (hvm : vbd.vm = some vmd) :
    (∀ d ds, c.getAllowedVBDDevices vmd.vmRef = .ok (d :: ds) →
      ∃ rec, (createVBD c vbd).1 = some rec ∧ rec.userdevice = d) ∧
    (c.getAllowedVBDDevices vmd.vmRef = .ok [] →
      createVBD c vbd = (none, .error "No available devices to attach to")) := by
  constructor
  · intro d ds h
    unfold createVBD
    rw [hvm]
    dsimp only [derefVM]
    rw [h]
    dsimp only
    refine ⟨_, rfl, ?_⟩
    cases vbd.vdi <;> rfl
  · intro h
    unfold createVBD
    rw [hvm]
    dsimp only [derefVM]
    rw [h]

/-- Claim C2, witness: with allowed slots `["1","2"]` the create call carries
slot `"1"` although the descriptor declared slot `"9"`; with no allowed slots
the call fails and no create call is issued. -/
theorem C2_witness :
    (∃ rec, (createVBD connC2a vbdC2).1 = some rec ∧ rec.userdevice = "1") ∧
    createVBD connC2b vbdC2 = (none, .error "No available devices to attach to") :=
  ⟨(C2_createVBD_slot connC2a vbdC2 vmEx rfl).1 "1" ["2"] rfl,
   (C2_createVBD_slot connC2b vbdC2 vmEx rfl).2 rfl⟩

/-- Helper: the read loop fails when some queried attachment has a kind other
than `CD` or `Disk`. -/
theorem readVBDsLoop_error_of_bad (c : Connection) :
    ∀ (refs : List String) (vbds : List VBDDescriptor),
      List.Forall₂ (fun ref vbd => c.queryVBD ref = .ok vbd) refs vbds →
      (∃ vbd ∈ vbds, vbd.vtype ≠ VbdTypeCD ∧ vbd.vtype ≠ VbdTypeDisk) →
      ∃ e, readVBDsLoop c refs = .error e := by
  intro refs vbds h
  induction h with
  | nil => rintro ⟨vbd, hv, _⟩; cases hv
  | @cons ref vbd refs2 vbds2 hq htail ih =>
    rintro ⟨bad, hbad, hb1, hb2⟩
    rw [List.mem_cons] at hbad
    by_cases hcd : vbd.vtype = VbdTypeCD
    · have hbadtail : bad ∈ vbds2 := by
        rcases hbad with rfl | h2
        · exact absurd hcd hb1
        · exact h2
      obtain ⟨e, he⟩ := ih ⟨bad, hbadtail, hb1, hb2⟩
      refine ⟨e, ?_⟩
      simp only [readVBDsLoop, hq, if_pos hcd, he]
    · by_cases hdisk : vbd.vtype = VbdTypeDisk
      · have hbadtail : bad ∈ vbds2 := by
          rcases hbad with rfl | h2
          · exact absurd hdisk hb2
          · exact h2
        obtain ⟨e, he⟩ := ih ⟨bad, hbadtail, hb1, hb2⟩
        refine ⟨e, ?_⟩
        simp only [readVBDsLoop, hq, if_neg hcd, if_pos hdisk, he]
      · refine ⟨"Unsupported VBD type " ++ goQuote vbd.vtype, ?_⟩
        simp only [readVBDsLoop, hq, if_neg hcd, if_neg hdisk]

/-- Helper: when every queried attachment is a `CD` or a `Disk`, the read
loop returns exactly the disk records and the optical records, in order. -/
theorem readVBDsLoop_ok_of_good (c : Connection) :
    ∀ (refs : List String) (vbds : List VBDDescriptor),
      List.Forall₂ (fun ref vbd => c.queryVBD ref = .ok vbd) refs vbds →
      (∀ vbd ∈ vbds, vbd.vtype = VbdTypeCD ∨ vbd.vtype = VbdTypeDisk) →
      readVBDsLoop c refs =
        .ok ((vbds.filter (fun v => v.vtype == VbdTypeDisk)).map fillVBDSchema,
             (vbds.filter (fun v => v.vtype == VbdTypeCD)).map fillVBDSchema) := by
  intro refs vbds h
  induction h with
  | nil => intro _; rfl
  | @cons ref vbd refs2 vbds2 hq htail ih =>
    intro hgood
    have htailgood : ∀ v ∈ vbds2, v.vtype = VbdTypeCD ∨ v.vtype = VbdTypeDisk :=
      fun v hv => hgood v (List.mem_cons_of_mem _ hv)
    rcases hgood vbd (List.mem_cons_self vbd vbds2) with hcd | hdisk
    · have hnd : ¬ vbd.vtype = VbdTypeDisk := by rw [hcd]; decide
      simp only [readVBDsLoop, hq, if_pos hcd, ih htailgood, List.filter_cons,
        beq_iff_eq, hcd, if_neg hnd,
        if_neg (show ¬ VbdTypeCD = VbdTypeDisk from by decide),
        if_pos (show VbdTypeCD = VbdTypeCD from rfl), List.map_cons]
      simp
    · have hncd : ¬ vbd.vtype = VbdTypeCD := by rw [hdisk]; decide
      simp only [readVBDsLoop, hq, if_neg hncd, if_pos hdisk, ih htailgood,
        List.filter_cons, beq_iff_eq, hdisk,
        if_neg (show ¬ VbdTypeDisk = VbdTypeCD from by decide),
        if_pos (show VbdTypeDisk = VbdTypeDisk from rfl), List.map_cons]
      simp

/-- Claim C8: with the attachment list enumerated and each reference queried,
an attachment of a kind other than disk or optical makes `readVBDs` fail (the
`Except` result carries no partial lists); otherwise the read returns exactly
the disk-kind records as the hard-drive list and the optical-kind records as
the optical list. -/
theorem C8_readVBDs_classify (c : Connection) (vm : VMDescriptor)
    (refs : List String) (vbds : List VBDDescriptor)
    (hGet : c.getVBDs vm.vmRef = .ok refs)
    (hQ : List.Forall₂ (fun ref vbd => c.queryVBD ref = .ok vbd) refs vbds) :
    ((∃ vbd ∈ vbds, vbd.vtype ≠ VbdTypeCD ∧ vbd.vtype ≠ VbdTypeDisk) →
      ∃ e, readVBDs c vm = .error e) ∧
    ((∀ vbd ∈ vbds, vbd.vtype = VbdTypeCD ∨ vbd.vtype = VbdTypeDisk) →
      readVBDs c vm =
        .ok ((vbds.filter (fun v => v.vtype == VbdTypeDisk)).map fillVBDSchema,
             (vbds.filter (fun v => v.vtype == VbdTypeCD)).map fillVBDSchema)) := by
  have hunfold : readVBDs c vm = readVBDsLoop c refs := by
    simp only [readVBDs, hGet]
  constructor
  · intro hbad
    rw [hunfold]
    exact readVBDsLoop_error_of_bad c refs vbds hQ hbad
  · intro hgood
    rw [hunfold]
    exact readVBDsLoop_ok_of_good c refs vbds hQ hgood

/-- Claim C8, witness: a VM with one disk and one optical attachment reads
back exactly one hard-drive record and one optical record; a VM exposing a
`Floppy` attachment makes the read fail. -/
theorem C8_witness :
    readVBDs connC8 vmEx =
      .ok ([fillVBDSchema vbdC8d], [fillVBDSchema vbdC8c]) ∧
    (∃ e, readVBDs connC8f vmEx = .error e) :=
  ⟨by
    have h := (C8_readVBDs_classify connC8 vmEx ["h1", "c1"] [vbdC8d, vbdC8c]
        rfl (List.Forall₂.cons rfl (List.Forall₂.cons rfl List.Forall₂.nil))).2
        (by decide)
    simpa using h,
   (C8_readVBDs_classify connC8f vmEx ["f1"] [vbdC8f] rfl
      (List.Forall₂.cons rfl List.Forall₂.nil)).1
      ⟨vbdC8f, List.mem_cons_self vbdC8f [], by decide⟩⟩

/-- Helper: every `VDI.Destroy` call issued by the destroy flow belongs to a
disk-kind attachment of the input list. -/
theorem destroyTemplateVDIs_calls_are_disks (c : Connection) :
    ∀ (vbds : List VBDDescriptor) (r : String),
      r ∈ (destroyTemplateVDIs c vbds).1 →
      ∃ vbd ∈ vbds, vbd.vtype = VbdTypeDisk ∧ vdiRefOf vbd = r := by
  intro vbds
  induction vbds with
  | nil => intro r hr; cases hr
  | cons vbd rest ih =>
    intro r hr
    by_cases ht : vbd.vtype = VbdTypeDisk
    · rw [show destroyTemplateVDIs c (vbd :: rest) =
          (match c.destroyVDI (vdiRefOf vbd) with
           | .error e => ([vdiRefOf vbd], .error e)
           | .ok _ =>
             ((vdiRefOf vbd) :: (destroyTemplateVDIs c rest).1,
              (destroyTemplateVDIs c rest).2)) from by
        simp only [destroyTemplateVDIs, if_neg (not_not_intro ht)]] at hr
      cases hd : c.destroyVDI (vdiRefOf vbd) with
      | error e =>
        rw [hd] at hr
        rw [List.mem_singleton] at hr
        exact ⟨vbd, List.mem_cons_self vbd rest, ht, hr.symm⟩
      | ok _ =>
        rw [hd] at hr
        rw [List.mem_cons] at hr
        rcases hr with hr | hr
        · exact ⟨vbd, List.mem_cons_self vbd rest, ht, hr.symm⟩
        · obtain ⟨v, hv, hvt, hvr⟩ := ih r hr
          exact ⟨v, List.mem_cons_of_mem _ hv, hvt, hvr⟩
    · rw [show destroyTemplateVDIs c (vbd :: rest) = destroyTemplateVDIs c rest from by
        simp only [destroyTemplateVDIs, if_pos ht]] at hr
      obtain ⟨v, hv, hvt, hvr⟩ := ih r hr
      exact ⟨v, List.mem_cons_of_mem _ hv, hvt, hvr⟩

/-- Helper: when every disk-kind attachment's destroy call succeeds, the
destroy flow issues exactly one call per disk-kind attachment, in order, and
succeeds. -/
theorem destroyTemplateVDIs_all_ok (c : Connection) :
    ∀ (vbds : List VBDDescriptor),
      (∀ vbd ∈ vbds, vbd.vtype = VbdTypeDisk → c.destroyVDI (vdiRefOf vbd) = .ok ()) →
      destroyTemplateVDIs c vbds =
        ((vbds.filter (fun v => v.vtype == VbdTypeDisk)).map vdiRefOf, .ok ()) := by
  intro vbds
  induction vbds with
  | nil => intro _; rfl
  | cons vbd rest ih =>
    intro hok
    have htail : ∀ v ∈ rest, v.vtype = VbdTypeDisk → c.destroyVDI (vdiRefOf v) = .ok () :=
      fun v hv => hok v (List.mem_cons_of_mem _ hv)
    by_cases ht : vbd.vtype = VbdTypeDisk
    · have hd := hok vbd (List.mem_cons_self vbd rest) ht
      simp only [destroyTemplateVDIs, if_neg (not_not_intro ht), hd, ih htail,
        List.filter_cons, beq_iff_eq, if_pos ht, List.map_cons]
    · have hbeq : (vbd.vtype == VbdTypeDisk) = false := by
        simpa using ht
      simp only [destroyTemplateVDIs, if_pos ht, ih htail, List.filter_cons, hbeq]
      simp

/-- Helper: the destroy flow aborts at the first disk-kind attachment whose
destroy call fails, having issued exactly the calls for the preceding disks
and the failing one. -/
theorem destroyTemplateVDIs_abort (c : Connection) :
    ∀ (vbds : List VBDDescriptor) (ds1 : List VBDDescriptor) (d : VBDDescriptor)
      (ds2 : List VBDDescriptor) (e : String),
      vbds.filter (fun v => v.vtype == VbdTypeDisk) = ds1 ++ d :: ds2 →
      (∀ x ∈ ds1, c.destroyVDI (vdiRefOf x) = .ok ()) →
      c.destroyVDI (vdiRefOf d) = .error e →
      destroyTemplateVDIs c vbds = (ds1.map vdiRefOf ++ [vdiRefOf d], .error e) := by
  intro vbds
  induction vbds with
  | nil =>
    intro ds1 d ds2 e hf
    simp at hf
  | cons vbd rest ih =>
    intro ds1 d ds2 e hf hds1 hde
    by_cases ht : vbd.vtype = VbdTypeDisk
    · rw [List.filter_cons, if_pos (by simpa using ht)] at hf
      cases ds1 with
      | nil =>
        simp only [List.nil_append] at hf
        obtain ⟨hvd, _⟩ := List.cons.inj hf
        subst hvd
        simp only [destroyTemplateVDIs, if_neg (not_not_intro ht), hde,
          List.map_nil, List.nil_append]
      | cons x ds1t =>
        simp only [List.cons_append] at hf
        obtain ⟨hvx, hf2⟩ := List.cons.inj hf
        have hx : c.destroyVDI (vdiRefOf vbd) = .ok () := by
          rw [hvx]
          exact hds1 x (List.mem_cons_self x ds1t)
        have hds1t : ∀ y ∈ ds1t, c.destroyVDI (vdiRefOf y) = .ok () :=
          fun y hy => hds1 y (List.mem_cons_of_mem _ hy)
        rw [show (x :: ds1t).map vdiRefOf ++ [vdiRefOf d] =
            vdiRefOf vbd :: (ds1t.map vdiRefOf ++ [vdiRefOf d]) from by
          rw [← hvx, List.map_cons, List.cons_append]]
        simp only [destroyTemplateVDIs, if_neg (not_not_intro ht), hx,
          ih ds1t d ds2 e hf2 hds1t hde]
    · rw [List.filter_cons, if_neg (by simpa using ht)] at hf
      rw [show destroyTemplateVDIs c (vbd :: rest) = destroyTemplateVDIs c rest from by
        simp only [destroyTemplateVDIs, if_pos ht]]
      exact ih ds1 d ds2 e hf hds1 hde

/-- Claim C9: the destroy flow issues an image-destroy call for every
disk-kind attachment (exactly those, in order, when all calls succeed), never
issues one for a non-disk attachment, and aborts at the first failing destroy
call having issued no later calls. -/
theorem C9_destroy_flow (c : Connection) (vbds : List VBDDescriptor) :
    (∀ r ∈ (destroyTemplateVDIs c vbds).1,
       ∃ vbd ∈ vbds, vbd.vtype = VbdTypeDisk ∧ vdiRefOf vbd = r) ∧
    ((∀ vbd ∈ vbds, vbd.vtype = VbdTypeDisk → c.destroyVDI (vdiRefOf vbd) = .ok ()) →
       destroyTemplateVDIs c vbds =
         ((vbds.filter (fun v => v.vtype == VbdTypeDisk)).map vdiRefOf, .ok ())) ∧
    (∀ ds1 d ds2 e,
       vbds.filter (fun v => v.vtype == VbdTypeDisk) = ds1 ++ d :: ds2 →
       (∀ x ∈ ds1, c.destroyVDI (vdiRefOf x) = .ok ()) →
       c.destroyVDI (vdiRefOf d) = .error e →
       destroyTemplateVDIs c vbds = (ds1.map vdiRefOf ++ [vdiRefOf d], .error e)) :=
  ⟨fun r hr => destroyTemplateVDIs_calls_are_disks c vbds r hr,
   destroyTemplateVDIs_all_ok c vbds,
   fun ds1 d ds2 e hf h1 h2 => destroyTemplateVDIs_abort c vbds ds1 d ds2 e hf h1 h2⟩

/-- Claim C9, witness: with two disks and one optical attachment, all destroys
succeeding issues exactly the two disk image destroys `["vd1","vd3"]`; when
the destroy of `"vd3"` fails, the flow issues `["vd1","vd3"]` and aborts with
that error — the optical image `"vd2"` is never destroyed. -/
theorem C9_witness :
    destroyTemplateVDIs connBase [vbdC9d1, vbdC9cd, vbdC9d2] =
      (["vd1", "vd3"], .ok ()) ∧
    destroyTemplateVDIs connC9bad [vbdC9d1, vbdC9cd, vbdC9d2] =
      (["vd1", "vd3"], .error "gone") :=
  ⟨(C9_destroy_flow connBase [vbdC9d1, vbdC9cd, vbdC9d2]).2.1
     (by intro v _ _; rfl),
   (C9_destroy_flow connC9bad [vbdC9d1, vbdC9cd, vbdC9d2]).2.2
     [vbdC9d1] vbdC9d2 [] "gone" (by decide)
     (by
       intro x hx
       rw [List.mem_singleton] at hx
       subst hx
       rfl)
     rfl⟩

/-- Helper: the inner binding scan reports `notFound` exactly when no declared
record matches the queried descriptor. -/
theorem bindLoop_notFound_iff (c : Connection) (vbd : VBDDescriptor) :
    ∀ s : List ConfigRecord, bindLoop c vbd s = .notFound ↔ ∀ r ∈ s, ¬ matchesVBD r vbd := by
  intro s
  induction s with
  | nil => simp [bindLoop]
  | cons data rest ih =>
    by_cases hm : data.is_from_template = true ∧ data.user_device = vbd.userDevice
    · simp only [bindLoop, if_pos hm]
      constructor
      · intro h
        cases hcm : c.commitVBD { vbd with isTemplateDevice := true } <;>
          rw [hcm] at h <;> cases h
      · intro hall
        exact absurd hm (hall data (List.mem_cons_self data rest))
    · simp only [bindLoop, if_neg hm]
      cases hb : bindLoop c vbd rest with
      | notFound =>
        constructor
        · intro _ r hr
          rw [List.mem_cons] at hr
          rcases hr with rfl | hr
          · exact hm
          · exact (ih.mp hb) r hr
        · intro _
          rfl
      | commitErr e =>
        constructor
        · intro h
          cases h
        · intro hall
          have hnf : bindLoop c vbd rest = .notFound :=
            ih.mpr (fun r hr => hall r (List.mem_cons_of_mem _ hr))
          rw [hb] at hnf
          cases hnf
      | bound rest2 =>
        constructor
        · intro h
          cases h
        · intro hall
          have hnf : bindLoop c vbd rest = .notFound :=
            ih.mpr (fun r hr => hall r (List.mem_cons_of_mem _ hr))
          rw [hb] at hnf
          cases hnf

/-- Helper: a successful binding implies some declared record matches. -/
theorem bindLoop_bound_exists (c : Connection) (vbd : VBDDescriptor) :
    ∀ (s s2 : List ConfigRecord), bindLoop c vbd s = .bound s2 →
      ∃ r ∈ s, matchesVBD r vbd := by
  intro s
  induction s with
  | nil => intro s2 h; cases h
  | cons data rest ih =>
    intro s2 h
    by_cases hm : data.is_from_template = true ∧ data.user_device = vbd.userDevice
    · exact ⟨data, List.mem_cons_self data rest, hm⟩
    · simp only [bindLoop, if_neg hm] at h
      cases hb : bindLoop c vbd rest with
      | notFound => rw [hb] at h; cases h
      | commitErr e => rw [hb] at h; cases h
      | bound rest2 =>
        obtain ⟨r, hr, hrm⟩ := ih rest2 hb
        exact ⟨r, List.mem_cons_of_mem _ hr, hrm⟩

/-- Helper: when every commit succeeds the binding scan never reports a commit
error. -/
theorem bindLoop_ne_commitErr (c : Connection) (vbd : VBDDescriptor)
    (hC : ∀ v, c.commitVBD v = .ok ()) :
    ∀ (s : List ConfigRecord) (e : String), bindLoop c vbd s ≠ .commitErr e := by
  intro s
  induction s with
  | nil => intro e h; cases h
  | cons data rest ih =>
    intro e h
    by_cases hm : data.is_from_template = true ∧ data.user_device = vbd.userDevice
    · simp only [bindLoop, if_pos hm, hC] at h
      cases h
    · simp only [bindLoop, if_neg hm] at h
      cases hb : bindLoop c vbd rest with
      | notFound => rw [hb] at h; cases h
      | commitErr e2 => exact ih e2 hb
      | bound rest2 => rw [hb] at h; cases h

/-- Helper: a successful binding keeps the record list's length, every
record's `is_from_template`/`user_device` pair, and leaves every non-matching
record unchanged. -/
theorem bindLoop_bound_spec (c : Connection) (vbd : VBDDescriptor) :
    ∀ (s s2 : List ConfigRecord), bindLoop c vbd s = .bound s2 →
      s2.length = s.length ∧
      (∀ i (h : i < s.length) (h2 : i < s2.length),
        ((s2.get ⟨i, h2⟩).is_from_template = (s.get ⟨i, h⟩).is_from_template ∧
         (s2.get ⟨i, h2⟩).user_device = (s.get ⟨i, h⟩).user_device) ∧
        (¬ matchesVBD (s.get ⟨i, h⟩) vbd → s2.get ⟨i, h2⟩ = s.get ⟨i, h⟩)) := by
  intro s
  induction s with
  | nil => intro s2 h; cases h
  | cons data rest ih =>
    intro s2 h
    by_cases hm : data.is_from_template = true ∧ data.user_device = vbd.userDevice
    · simp only [bindLoop, if_pos hm] at h
      cases hcm : c.commitVBD { vbd with isTemplateDevice := true } with
      | error e => rw [hcm] at h; cases h
      | ok _ =>
        rw [hcm] at h
        cases h with
        | refl =>
          constructor
          · simp
          · intro i hl h2
            cases i with
            | zero =>
              refine ⟨⟨?_, ?_⟩, ?_⟩
              · simp [hm.1]
              · simp [hm.2]
              · intro hnm
                exact absurd hm hnm
            | succ n => exact ⟨⟨rfl, rfl⟩, fun _ => rfl⟩
    · simp only [bindLoop, if_neg hm] at h
      cases hb : bindLoop c vbd rest with
      | notFound => rw [hb] at h; cases h
      | commitErr e => rw [hb] at h; cases h
      | bound rest2 =>
        rw [hb] at h
        cases h with
        | refl =>
          obtain ⟨hlen, hpt⟩ := ih rest2 hb
          constructor
          · simp [hlen]
          · intro i h1 h2
            cases i with
            | zero => exact ⟨⟨rfl, rfl⟩, fun _ => rfl⟩
            | succ n =>
              exact hpt n (Nat.lt_of_succ_lt_succ h1) (Nat.lt_of_succ_lt_succ h2)

/-- Helper: matching is determined by the preserved
`is_from_template`/`user_device` pairs, so it transfers across a binding
step. -/
theorem exists_match_transfer :
    ∀ (s s2 : List ConfigRecord), s2.length = s.length →
      (∀ i (h : i < s.length) (h2 : i < s2.length),
        (s2.get ⟨i, h2⟩).is_from_template = (s.get ⟨i, h⟩).is_from_template ∧
        (s2.get ⟨i, h2⟩).user_device = (s.get ⟨i, h⟩).user_device) →
      ∀ vbd : VBDDescriptor,
        ((∃ r ∈ s2, matchesVBD r vbd) ↔ ∃ r ∈ s, matchesVBD r vbd) := by
  intro s s2 hlen hprof vbd
  constructor
  · rintro ⟨r, hr, hrm⟩
    obtain ⟨⟨i, hi⟩, hget⟩ := List.mem_iff_get.mp hr
    have hi1 : i < s.length := hlen ▸ hi
    refine ⟨s.get ⟨i, hi1⟩, List.get_mem s i hi1, ?_, ?_⟩
    · exact ((hprof i hi1 hi).1.symm.trans (by rw [hget]; exact hrm.1))
    · exact ((hprof i hi1 hi).2.symm.trans (by rw [hget]; exact hrm.2))
  · rintro ⟨r, hr, hrm⟩
    obtain ⟨⟨i, hi⟩, hget⟩ := List.mem_iff_get.mp hr
    have hi2 : i < s2.length := hlen.symm ▸ hi
    refine ⟨s2.get ⟨i, hi2⟩, List.get_mem s2 i hi2, ?_, ?_⟩
    · exact ((hprof i hi hi2).1.trans (by rw [hget]; exact hrm.1))
    · exact ((hprof i hi hi2).2.trans (by rw [hget]; exact hrm.2))

/-- Helper: when the outer binding loop succeeds (all queries succeeding and
all commits succeeding), every queried attachment of the requested kind was
matched by some declared record, lengths and
`is_from_template`/`user_device` pairs are preserved, and records matched by
no queried attachment of the requested kind are unchanged. -/
theorem readTemplateLoop_ok_spec (c : Connection) (ty : String)
    (hC : ∀ v, c.commitVBD v = .ok ()) :
    ∀ (refs : List String) (s s2 : List ConfigRecord),
      (∀ ref ∈ refs, ∃ vbd, c.queryVBD ref = .ok vbd) →
      readTemplateLoop c ty refs s = .ok s2 →
      s2.length = s.length ∧
      (∀ i (h : i < s.length) (h2 : i < s2.length),
        (s2.get ⟨i, h2⟩).is_from_template = (s.get ⟨i, h⟩).is_from_template ∧
        (s2.get ⟨i, h2⟩).user_device = (s.get ⟨i, h⟩).user_device) ∧
      (∀ ref ∈ refs, ∀ vbd, c.queryVBD ref = .ok vbd → vbd.vtype = ty →
        ∃ r ∈ s, matchesVBD r vbd) ∧
      (∀ i (h : i < s.length) (h2 : i < s2.length),
        (∀ ref ∈ refs, ∀ vbd, c.queryVBD ref = .ok vbd → vbd.vtype = ty →
          ¬ matchesVBD (s.get ⟨i, h⟩) vbd) →
        s2.get ⟨i, h2⟩ = s.get ⟨i, h⟩) := by
  intro refs
  induction refs with
  | nil =>
    intro s s2 _ hok
    cases hok with
    | refl =>
      refine ⟨rfl, fun i h h2 => ⟨rfl, rfl⟩, ?_, fun i h h2 _ => rfl⟩
      intro ref href
      cases href
  | cons ref0 rest ih =>
    intro s s2 hQ hok
    obtain ⟨vbd0, hq0⟩ := hQ ref0 (List.mem_cons_self ref0 rest)
    have hQrest : ∀ ref ∈ rest, ∃ vbd, c.queryVBD ref = .ok vbd :=
      fun ref hr => hQ ref (List.mem_cons_of_mem _ hr)
    simp only [readTemplateLoop, hq0] at hok
    by_cases hty : ty = vbd0.vtype
    · rw [if_neg (not_not_intro hty)] at hok
      cases hb : bindLoop c vbd0 s with
      | notFound => rw [hb] at hok; cases hok
      | commitErr e => exact absurd hb (bindLoop_ne_commitErr c vbd0 hC s e)
      | bound s1 =>
        rw [hb] at hok
        obtain ⟨hlen1, hstep⟩ := bindLoop_bound_spec c vbd0 s s1 hb
        obtain ⟨hlen2, hprof2, hmat2, hunch2⟩ := ih s1 s2 hQrest hok
        have hprof1 : ∀ i (h : i < s.length) (h2 : i < s1.length),
            (s1.get ⟨i, h2⟩).is_from_template = (s.get ⟨i, h⟩).is_from_template ∧
            (s1.get ⟨i, h2⟩).user_device = (s.get ⟨i, h⟩).user_device :=
          fun i h h2 => (hstep i h h2).1
        refine ⟨hlen2.trans hlen1, ?_, ?_, ?_⟩
        · intro i h h2
          have h1 : i < s1.length := by rw [hlen1]; exact h
          exact ⟨(hprof2 i h1 h2).1.trans (hprof1 i h h1).1,
                 (hprof2 i h1 h2).2.trans (hprof1 i h h1).2⟩
        · intro ref href vbd hq hvt
          rw [List.mem_cons] at href
          rcases href with rfl | href
          · rw [hq0] at hq
            cases hq
            exact bindLoop_bound_exists c vbd0 s s1 hb
          · exact (exists_match_transfer s s1 hlen1 hprof1 vbd).mp
              (hmat2 ref href vbd hq hvt)
        · intro i h h2 hnever
          have h1 : i < s1.length := by rw [hlen1]; exact h
          have hnm0 : ¬ matchesVBD (s.get ⟨i, h⟩) vbd0 :=
            hnever ref0 (List.mem_cons_self ref0 rest) vbd0 hq0 hty.symm
          have hkeep : s1.get ⟨i, h1⟩ = s.get ⟨i, h⟩ := (hstep i h h1).2 hnm0
          have hnever1 : ∀ ref ∈ rest, ∀ vbd, c.queryVBD ref = .ok vbd →
              vbd.vtype = ty → ¬ matchesVBD (s1.get ⟨i, h1⟩) vbd := by
            intro ref hr vbd hq hvt
            rw [hkeep]
            exact hnever ref (List.mem_cons_of_mem _ hr) vbd hq hvt
          rw [hunch2 i h1 h2 hnever1, hkeep]
    · rw [if_pos hty] at hok
      obtain ⟨hlen2, hprof2, hmat2, hunch2⟩ := ih s s2 hQrest hok
      refine ⟨hlen2, hprof2, ?_, ?_⟩
      · intro ref href vbd hq hvt
        rw [List.mem_cons] at href
        rcases href with rfl | href
        · rw [hq0] at hq
          cases hq
          exact absurd hvt.symm hty
        · exact hmat2 ref href vbd hq hvt
      · intro i h h2 hnever
        exact hunch2 i h h2
          (fun ref hr vbd hq hvt => hnever ref (List.mem_cons_of_mem _ hr) vbd hq hvt)

/-- Helper: when some queried attachment of the requested kind matches no
declared record (all queries and commits succeeding), the outer binding loop
aborts with the not-referenced error naming such an attachment's UUID. -/
theorem readTemplateLoop_unmatched_error (c : Connection) (ty : String)
    (hC : ∀ v, c.commitVBD v = .ok ()) :
    ∀ (refs : List String) (s : List ConfigRecord),
      (∀ ref ∈ refs, ∃ vbd, c.queryVBD ref = .ok vbd) →
      (∃ ref ∈ refs, ∃ vbd, c.queryVBD ref = .ok vbd ∧ vbd.vtype = ty ∧
        ∀ r ∈ s, ¬ matchesVBD r vbd) →
      ∃ vbd, (∃ ref ∈ refs, c.queryVBD ref = .ok vbd) ∧ vbd.vtype = ty ∧
        (∀ r ∈ s, ¬ matchesVBD r vbd) ∧
        readTemplateLoop c ty refs s =
          .error ("template VBD " ++ vbd.uuid ++ " is not referenced") := by
  intro refs
  induction refs with
  | nil =>
    intro s _ hex
    obtain ⟨ref, href, _⟩ := hex
    cases href
  | cons ref0 rest ih =>
    intro s hQ hex
    obtain ⟨vbd0, hq0⟩ := hQ ref0 (List.mem_cons_self ref0 rest)
    have hQrest : ∀ ref ∈ rest, ∃ vbd, c.queryVBD ref = .ok vbd :=
      fun ref hr => hQ ref (List.mem_cons_of_mem _ hr)
    by_cases hty : ty = vbd0.vtype
    · cases hb : bindLoop c vbd0 s with
      | commitErr e => exact absurd hb (bindLoop_ne_commitErr c vbd0 hC s e)
      | notFound =>
        refine ⟨vbd0, ⟨ref0, List.mem_cons_self ref0 rest, hq0⟩, hty.symm,
          (bindLoop_notFound_iff c vbd0 s).mp hb, ?_⟩
        simp only [readTemplateLoop, hq0, if_neg (not_not_intro hty), hb]
      | bound s1 =>
        obtain ⟨ref, href, vbd, hq, hvt, hunm⟩ := hex
        rw [List.mem_cons] at href
        rcases href with rfl | href
        · rw [hq0] at hq
          cases hq
          obtain ⟨r, hr, hrm⟩ := bindLoop_bound_exists c vbd0 s s1 hb
          exact absurd hrm (hunm r hr)
        · obtain ⟨hlen1, hstep⟩ := bindLoop_bound_spec c vbd0 s s1 hb
          have hprof1 : ∀ i (h : i < s.length) (h2 : i < s1.length),
              (s1.get ⟨i, h2⟩).is_from_template = (s.get ⟨i, h⟩).is_from_template ∧
              (s1.get ⟨i, h2⟩).user_device = (s.get ⟨i, h⟩).user_device :=
            fun i h h2 => (hstep i h h2).1
          have hunm1 : ∀ r ∈ s1, ¬ matchesVBD r vbd := by
            intro r hr hrm
            obtain ⟨r2, hr2, hrm2⟩ :=
              (exists_match_transfer s s1 hlen1 hprof1 vbd).mp ⟨r, hr, hrm⟩
            exact hunm r2 hr2 hrm2
          obtain ⟨vbdw, ⟨refw, hrefw, hqw⟩, hvtw, hunmw, herr⟩ :=
            ih s1 hQrest ⟨ref, href, vbd, hq, hvt, hunm1⟩
          refine ⟨vbdw, ⟨refw, List.mem_cons_of_mem _ hrefw, hqw⟩, hvtw, ?_, ?_⟩
          · intro r hr hrm
            obtain ⟨r2, hr2, hrm2⟩ :=
              (exists_match_transfer s s1 hlen1 hprof1 vbdw).mpr ⟨r, hr, hrm⟩
            exact hunmw r2 hr2 hrm2
          · simp only [readTemplateLoop, hq0, if_neg (not_not_intro hty), hb]
            exact herr
    · obtain ⟨ref, href, vbd, hq, hvt, hunm⟩ := hex
      rw [List.mem_cons] at href
      rcases href with rfl | href
      · rw [hq0] at hq
        cases hq
        exact absurd hvt.symm hty
      · obtain ⟨vbdw, ⟨refw, hrefw, hqw⟩, hvtw, hunmw, herr⟩ :=
          ih s hQrest ⟨ref, href, vbd, hq, hvt, hunm⟩
        refine ⟨vbdw, ⟨refw, List.mem_cons_of_mem _ hrefw, hqw⟩, hvtw, hunmw, ?_⟩
        simp only [readTemplateLoop, hq0, if_pos hty]
        exact herr

/-- Claim C3, counterexample: the only remote attachment `vbdC3` is NOT
marked template-origin, so the declared record `recC3` is matched by no
template attachment — yet the binding flow overwrites it (to `recC3bound`),
because the source matches every attachment of the requested kind without
checking its template flag.  This refutes the claim's restriction to
attachments "marked template-origin" and its promise that unmatched declared
records are left unmodified. -/
theorem C3_counterexample :
    vbdC3.isTemplateDevice = false ∧
    readTemplateVBDsToSchema connC3 vmEx [recC3] VbdTypeDisk = .ok [recC3bound] ∧
    recC3bound ≠ recC3 :=
  ⟨rfl, rfl, by decide⟩

/-- Claim C3, amended: in the template-binding flow every remote attachment
of the requested kind — whether or not it is marked template-origin — must be
matched by a declared record with `is_from_template` set and an equal device
slot: on success every such attachment has a match and declared records
matched by no attachment of the requested kind are left unmodified; when some
attachment of the requested kind has no matching declared record, the whole
operation aborts with an error naming such an attachment's UUID (all queries
and commits assumed to succeed). -/
theorem C3_amended (c : Connection) (vm : VMDescriptor) (s : List ConfigRecord)
    (ty : String) (refs : List String)
    (hGet : c.getVBDs vm.vmRef = .ok refs)
    (hQ : ∀ ref ∈ refs, ∃ vbd, c.queryVBD ref = .ok vbd)
    (hC : ∀ v, c.commitVBD v = .ok ()) :
    (∀ s2, readTemplateVBDsToSchema c vm s ty = .ok s2 →
      (∀ ref ∈ refs, ∀ vbd, c.queryVBD ref = .ok vbd → vbd.vtype = ty →
        ∃ r ∈ s, matchesVBD r vbd) ∧
      s2.length = s.length ∧
      (∀ i (h : i < s.length) (h2 : i < s2.length),
        (∀ ref ∈ refs, ∀ vbd, c.queryVBD ref = .ok vbd → vbd.vtype = ty →
          ¬ matchesVBD (s.get ⟨i, h⟩) vbd) →
        s2.get ⟨i, h2⟩ = s.get ⟨i, h⟩)) ∧
    ((∃ ref ∈ refs, ∃ vbd, c.queryVBD ref = .ok vbd ∧ vbd.vtype = ty ∧
        ∀ r ∈ s, ¬ matchesVBD r vbd) →
      ∃ vbd, (∃ ref ∈ refs, c.queryVBD ref = .ok vbd) ∧ vbd.vtype = ty ∧
        (∀ r ∈ s, ¬ matchesVBD r vbd) ∧
        readTemplateVBDsToSchema c vm s ty =
          .error ("template VBD " ++ vbd.uuid ++ " is not referenced")) := by
  have hloop : readTemplateVBDsToSchema c vm s ty = readTemplateLoop c ty refs s := by
    simp only [readTemplateVBDsToSchema, hGet]
  constructor
  · intro s2 hok
    rw [hloop] at hok
    obtain ⟨hlen, _, hmat, hunch⟩ := readTemplateLoop_ok_spec c ty hC refs s s2 hQ hok
    exact ⟨hmat, hlen, hunch⟩
  · intro hex
    obtain ⟨vbd, hin, hvt, hunm, herr⟩ :=
      readTemplateLoop_unmatched_error c ty hC refs s hQ hex
    exact ⟨vbd, hin, hvt, hunm, by rw [hloop]; exact herr⟩

/-- Claim C3 (amended), witness: one remote template disk attachment with
slot `"0"` and UUID `"u0"`, and a declared record set whose only record does
not match: the success conclusions hold vacuously and the flow aborts with
the error naming `"u0"`. -/
theorem C3_witness :
    (∀ s2, readTemplateVBDsToSchema connC3w vmEx [recC3w] VbdTypeDisk = .ok s2 →
      (∀ ref ∈ ["b0"], ∀ vbd, connC3w.queryVBD ref = .ok vbd → vbd.vtype = VbdTypeDisk →
        ∃ r ∈ [recC3w], matchesVBD r vbd) ∧
      s2.length = [recC3w].length ∧
      (∀ i (h : i < [recC3w].length) (h2 : i < s2.length),
        (∀ ref ∈ ["b0"], ∀ vbd, connC3w.queryVBD ref = .ok vbd → vbd.vtype = VbdTypeDisk →
          ¬ matchesVBD ([recC3w].get ⟨i, h⟩) vbd) →
        s2.get ⟨i, h2⟩ = [recC3w].get ⟨i, h⟩)) ∧
    ((∃ ref ∈ ["b0"], ∃ vbd, connC3w.queryVBD ref = .ok vbd ∧ vbd.vtype = VbdTypeDisk ∧
        ∀ r ∈ [recC3w], ¬ matchesVBD r vbd) →
      ∃ vbd, (∃ ref ∈ ["b0"], connC3w.queryVBD ref = .ok vbd) ∧ vbd.vtype = VbdTypeDisk ∧
        (∀ r ∈ [recC3w], ¬ matchesVBD r vbd) ∧
        readTemplateVBDsToSchema connC3w vmEx [recC3w] VbdTypeDisk =
          .error ("template VBD " ++ vbd.uuid ++ " is not referenced")) :=
  C3_amended connC3w vmEx [recC3w] VbdTypeDisk ["b0"] rfl
    (fun _ _ => ⟨vbdC3w, rfl⟩) (fun _ => rfl)
